import Mathlib

/-
Verification of the layer-composition and aggregation engine of the
build-map repository (excel_to_map_report.py and city_story_map.py).

The tabular data model (pandas DataFrames) is embedded shallowly: a cell is
a numeric value, a textual value, or a missing value (NaN); a row is an
association list from column names to cells; a data frame carries its
column list and its rows.  Floating point numbers are modelled as rationals
and NaN as an explicit missing value.  Randomness (the synthetic heat
sampler) and file contents are passed in explicitly as arguments.
-/

namespace BuildMap

/-- One cell of a tabular dataset: a numeric value, a textual value, or a
missing value (pandas NaN). -/
inductive Cell where
  | num (q : ℚ)
  | str (s : String)
  | na
deriving DecidableEq

/-- A row: an association list from column names to cell values.  Reading an
absent column yields the missing value, as a pandas row does for NaN. -/
abbrev Row := List (String × Cell)

/-- A tabular dataset: column names plus rows. -/
structure DataFrame where
  columns : List String
  rows : List Row
deriving DecidableEq

/-- Read one cell of a row; absent keys read as missing. -/
def getCell (r : Row) (c : String) : Cell :=
  (r.lookup c).getD Cell.na

/-- pandas DataFrame.empty: true when either axis has length zero. -/
def DataFrame.isEmptyDF (df : DataFrame) : Bool :=
  df.rows.isEmpty || df.columns.isEmpty

/-- Python str.lower (ASCII letters, which is all the route keys use). -/
def strLower (s : String) : String := ⟨s.data.map Char.toLower⟩

/-- Remove leading and trailing whitespace from a character list. -/
def trimChars (cs : List Char) : List Char :=
  ((cs.dropWhile Char.isWhitespace).reverse.dropWhile Char.isWhitespace).reverse

/-- Python str.strip. -/
def strTrim (s : String) : String := ⟨trimChars s.data⟩

/-- Python str.title for the single-word landmark kinds. -/
def strCapitalize (s : String) : String :=
  match s.data with
  | [] => ""
  | c :: rest => ⟨c.toUpper :: rest⟩

/-- Stringification of a cell, as Python str() of a dataframe value. -/
def Cell.toStr : Cell → String
  | Cell.num q => toString q
  | Cell.str s => s
  | Cell.na => "nan"

/-- Value of a decimal digit string; none when a non-digit occurs. -/
def digitsVal : List Char → Option Nat
  | [] => some 0
  | c :: cs =>
    if c.isDigit then (digitsVal cs).map (fun n => (c.toNat - 48) * 10 ^ cs.length + n)
    else none

/-- Split a character list at the dots. -/
def splitOnDot : List Char → List (List Char)
  | [] => [[]]
  | c :: rest =>
    let r := splitOnDot rest
    if c = '.' then [] :: r else (c :: r.headD []) :: r.tail

/-- Numeric parsing of a textual cell, as pandas to_numeric applies it to
plain optionally-signed decimal literals (the only numeric shape the
datasets use); anything else fails to parse. -/
def parseDecimal (s : String) : Option ℚ :=
  let t := trimChars s.data
  let sign : ℚ := if t.headD ' ' = '-' then -1 else 1
  let body := if t.headD ' ' = '-' ∨ t.headD ' ' = '+' then t.tail else t
  match splitOnDot body with
  | [ip] =>
    if ip.isEmpty then none
    else (digitsVal ip).map (fun n => sign * n)
  | [ip, fp] =>
    if ip.isEmpty && fp.isEmpty then none
    else
      (digitsVal ip).bind (fun n =>
        (digitsVal fp).map (fun f =>
          sign * ((n : ℚ) + (f : ℚ) / (10 : ℚ) ^ fp.length)))
  | _ => none

/-- pandas to_numeric with errors="coerce" on one cell: numbers pass
through, parseable text becomes a number, anything else becomes NaN. -/
def Cell.toNumeric : Cell → Cell
  | Cell.num q => Cell.num q
  | Cell.str s => (parseDecimal s).elim Cell.na Cell.num
  | Cell.na => Cell.na

/-- Required columns of the points dataset (load_data). -/
def requiredPointCols : List String := ["name", "category", "latitude", "longitude"]

/-- Required columns of the routes dataset (load_routes). -/
def requiredRouteCols : List String := ["route_name", "route_type", "latitude", "longitude"]

/-- The required columns absent from the schema itself. -/
def missingCols (required : List String) (df : DataFrame) : List String :=
  required.filter (fun c => !(df.columns.contains c))

/-- dropna(subset=["latitude", "longitude"]). -/
def dropMissingLatLon (rows : List Row) : List Row :=
  rows.filter (fun r => getCell r "latitude" != Cell.na && getCell r "longitude" != Cell.na)

/-- Coerce the cell of one named column of a row to numeric. -/
def coerceRowCol (c : String) (r : Row) : Row :=
  r.map (fun kv => if kv.1 = c then (kv.1, kv.2.toNumeric) else kv)

/-- df[c] = pd.to_numeric(df[c], errors="coerce"). -/
def coerceNumericCol (c : String) (rows : List Row) : List Row :=
  rows.map (coerceRowCol c)

/-- load_data: schema check (fatal on missing required columns), then drop
rows without coordinates, coerce coordinates to numeric, and drop the rows
whose coordinates failed the coercion. -/
def load_data (df : DataFrame) : Except String DataFrame :=
  let missing := missingCols requiredPointCols df
  if missing.isEmpty then
    Except.ok
      { columns := df.columns
        rows := dropMissingLatLon (coerceNumericCol "longitude"
          (coerceNumericCol "latitude" (dropMissingLatLon df.rows))) }
  else
    Except.error ("Missing required columns: " ++ String.intercalate ", " missing)

/-- load_routes: a missing file (none) yields an empty frame; otherwise a
schema check, the coordinate cleanup of load_data, and a seq column that is
coerced when present and filled with 0 when absent. -/
def load_routes (source : Option DataFrame) : Except String DataFrame :=
  match source with
  | none => Except.ok { columns := [], rows := [] }
  | some df =>
    let missing := missingCols requiredRouteCols df
    if missing.isEmpty then
      let rows := dropMissingLatLon (coerceNumericCol "longitude"
        (coerceNumericCol "latitude" (dropMissingLatLon df.rows)))
      if df.columns.contains "seq" then
        Except.ok { columns := df.columns, rows := coerceNumericCol "seq" rows }
      else
        Except.ok { columns := df.columns ++ ["seq"]
                    rows := rows.map (fun r => r ++ [("seq", Cell.num 0)]) }
    else
      Except.error ("Routes file is missing required columns: " ++
        String.intercalate ", " missing)

/-- First-occurrence key scan: the distinct values of a list in the order
they first appear (pandas hash-table key order), skipping those already
seen. -/
def firstSeenGo {α : Type} [DecidableEq α] (seen : List α) : List α → List α
  | [] => []
  | x :: xs => if x ∈ seen then firstSeenGo seen xs else x :: firstSeenGo (x :: seen) xs

/-- The distinct values of a list in first-occurrence order. -/
def firstSeenKeys {α : Type} [DecidableEq α] (l : List α) : List α :=
  firstSeenGo [] l

/-- Descending-count order on (label, count) pairs, the order of a pandas
value_counts result. -/
def descCountRel {α : Type} (a b : α × Nat) : Prop := b.2 ≤ a.2

instance {α : Type} : DecidableRel (@descCountRel α) := fun a b => Nat.decLe b.2 a.2

instance {α : Type} : IsTotal (α × Nat) descCountRel := ⟨fun a b => Nat.le_total b.2 a.2⟩

instance {α : Type} : IsTrans (α × Nat) descCountRel := ⟨fun _ _ _ h1 h2 => Nat.le_trans h2 h1⟩

/-- Attach to each key its number of occurrences in the value list. -/
def countPairs {α : Type} [DecidableEq α] (vals : List α) (keys : List α) : List (α × Nat) :=
  keys.map (fun k => (k, vals.count k))

/-- pandas Series.value_counts on a cell column: occurrences per distinct
non-missing value, sorted by descending count; equal counts keep the
first-occurrence order of the keys (stable sort). -/
def value_counts (cells : List Cell) : List (Cell × Nat) :=
  List.insertionSort descCountRel
    (countPairs cells ((firstSeenKeys cells).filter (fun k => k != Cell.na)))

/-- value_counts on an already-stringified column with no missing values. -/
def value_counts_str (vals : List String) : List (String × Nat) :=
  List.insertionSort descCountRel (countPairs vals (firstSeenKeys vals))

/-- Lexicographic comparison of character lists by code point, as Python
compares strings. -/
def charListLEb : List Char → List Char → Bool
  | [], _ => true
  | _ :: _, [] => false
  | a :: as, b :: bs => if a.toNat = b.toNat then charListLEb as bs else decide (a.toNat < b.toNat)

/-- Python string ordering. -/
def strLEb (a b : String) : Bool := charListLEb a.data b.data

/-- Ordering of group keys, as pandas sorts them (numbers and strings each
by their own order; a key column mixing the two does not occur). -/
def cellLEb : Cell → Cell → Bool
  | Cell.num x, Cell.num y => decide (x ≤ y)
  | Cell.num _, _ => true
  | Cell.str _, Cell.num _ => false
  | Cell.str x, Cell.str y => strLEb x y
  | Cell.str _, _ => true
  | Cell.na, Cell.na => true
  | Cell.na, _ => false

/-- Propositional form of the group-key order. -/
def cellLE (a b : Cell) : Prop := cellLEb a b = true

instance : DecidableRel cellLE := fun a b => instDecidableEqBool (cellLEb a b) true

/-- The seq sort key of a route row: its numeric value, or none for a
missing value, which sorts last (pandas na_position="last"). -/
def seqKey (r : Row) : Option ℚ :=
  match getCell r "seq" with
  | Cell.num q => some q
  | _ => none

/-- Order on optional sort keys with the missing key greatest. -/
def optLEb : Option ℚ → Option ℚ → Bool
  | _, none => true
  | none, some _ => false
  | some a, some b => decide (a ≤ b)

/-- Row order of sort_values("seq"). -/
def seqLE (a b : Row) : Prop := optLEb (seqKey a) (seqKey b) = true

instance : DecidableRel seqLE := fun a b => instDecidableEqBool (optLEb (seqKey a) (seqKey b)) true

instance : IsTotal Row seqLE := by
  constructor
  intro a b
  unfold seqLE
  rcases seqKey a with _ | x <;> rcases seqKey b with _ | y <;> simp [optLEb]
  exact le_total x y

instance : IsTrans Row seqLE := by
  constructor
  intro a b c
  unfold seqLE
  rcases seqKey a with _ | x <;> rcases seqKey b with _ | y <;> rcases seqKey c with _ | z <;>
    simp [optLEb]
  exact le_trans

/-- group.sort_values("seq"): ascending by seq.  The pandas default sort
kind is quicksort, which is documented as non-stable: the relative order
of rows with equal seq keys is implementation-defined (numpy's introsort
happens to leave small arrays to an insertion sort but permutes tied keys
in larger ones).  The model uses a stable insertion sort, which agrees
with the program wherever the seq keys of a group are distinct or the
group is small; tie order in larger groups is a property of the model
only, and no theorem below relies on it. -/
def sortBySeq (rows : List Row) : List Row := List.insertionSort seqLE rows

/-- The keys of groupby(c): distinct non-missing values of the column, in
ascending key order (groupby sorts its keys). -/
def groupKeys (rows : List Row) (c : String) : List Cell :=
  List.insertionSort cellLE
    ((firstSeenKeys (rows.map (fun r => getCell r c))).filter (fun k => k != Cell.na))

/-- df.groupby(c): each key with its rows in original order. -/
def groupBy (rows : List Row) (c : String) : List (Cell × List Row) :=
  (groupKeys rows c).map (fun k => (k, rows.filter (fun r => getCell r c == k)))

/-- The fixed route-type color table of create_map. -/
def typeColors : List (String × String) :=
  [("tram", "blue"), ("bus", "red"), ("walk", "green"), ("bike", "purple")]

/-- The shared fallback color of create_map. -/
def defaultColor : String := "orange"

/-- Color resolution: strip and lowercase the route type, then look it up
in the fixed table, falling back to the shared default. -/
def resolveColor (t : String) : String :=
  (typeColors.lookup (strLower (strTrim t))).getD defaultColor

/-- A reconstructed route: group key, normalized type of the first sample
after sorting, and the ordered coordinate pairs. -/
structure Route where
  name : Cell
  rtype : String
  points : List (Cell × Cell)
deriving DecidableEq

/-- One groupby group turned into a route, as the route loop of create_map
does: sort by seq, take the type of the first sorted sample (stripped and
lowercased), and zip the coordinate columns. -/
def mkRoute (k : Cell) (g : List Row) : Route :=
  let g2 := sortBySeq g
  { name := k
    rtype := strLower (strTrim (Cell.toStr (getCell (g2.headD []) "route_type")))
    points := g2.map (fun r => (getCell r "latitude", getCell r "longitude")) }

/-- The route reconstruction of create_map: one route per groupby group of
route_name. -/
def reconstructRoutes (rows : List Row) : List Route :=
  (groupBy rows "route_name").map (fun kg => mkRoute kg.1 kg.2)

/-- A circle marker of the points loop of create_map. -/
structure Marker where
  location : Cell × Cell
  popupLines : List String
  tooltip : Cell
deriving DecidableEq

/-- A polyline of the routes loop of create_map. -/
structure Polyline where
  points : List (Cell × Cell)
  color : String
  tooltip : String
deriving DecidableEq

/-- The composed folium map: center (NaN as none), markers, polylines, and
the layer control.  Rendering is external. -/
structure MapDoc where
  center : Option ℚ × Option ℚ
  markers : List Marker
  polylines : List Polyline
  hasLayerControl : Bool
deriving DecidableEq

/-- One point row turned into a marker: bold name line, plus the
description when it is a string with non-whitespace content. -/
def mkMarker (r : Row) : Marker :=
  let base := ["<b>" ++ Cell.toStr (getCell r "name") ++ "</b>"]
  let lines :=
    match getCell r "description" with
    | Cell.str d => if (strTrim d).isEmpty then base else base ++ [d]
    | _ => base
  { location := (getCell r "latitude", getCell r "longitude")
    popupLines := lines
    tooltip := getCell r "name" }

/-- The cells of one column. -/
def colCells (df : DataFrame) (c : String) : List Cell :=
  df.rows.map (fun r => getCell r c)

/-- The numeric values of a cell list. -/
def numericVals (cells : List Cell) : List ℚ :=
  cells.filterMap (fun c => match c with | Cell.num q => some q | _ => none)

/-- pandas Series.mean: mean of the non-missing values, NaN (none) when
there are none. -/
def seriesMean (cells : List Cell) : Option ℚ :=
  let v := numericVals cells
  if v.isEmpty then none else some (v.sum / v.length)

/-- The layer composition of create_map: center on the mean of all
coordinates (points, plus routes when a non-empty routes frame is passed),
one marker per point row, and one colored polyline per reconstructed
route.  This is the pure composed document; the rendering library's
constructor additionally validates the center location — that boundary is
modelled by create_map_checked below. -/
def create_map (df_points : DataFrame) (df_routes : Option DataFrame) : MapDoc :=
  let routeRows : Option (List Row) :=
    match df_routes with
    | some dr => if dr.isEmptyDF then none else some dr.rows
    | none => none
  let extraCells : String → List Cell := fun c =>
    match routeRows with
    | some rs => rs.map (fun r => getCell r c)
    | none => []
  let latCells := colCells df_points "latitude" ++ extraCells "latitude"
  let lonCells := colCells df_points "longitude" ++ extraCells "longitude"
  let polys :=
    match routeRows with
    | some rs =>
      (reconstructRoutes rs).map (fun rt =>
        { points := rt.points
          color := (typeColors.lookup rt.rtype).getD defaultColor
          tooltip := Cell.toStr rt.name ++ " (" ++ rt.rtype ++ ")" })
    | none => []
  { center := (seriesMean latCells, seriesMean lonCells)
    markers := df_points.rows.map mkMarker
    polylines := polys
    hasLayerControl := true }

/-- folium's validate_location check, which folium.Map applies to the
location it is constructed with: a location holding a NaN coordinate
(modelled as none) is rejected with a ValueError naming NaNs; a fully
numeric location passes through. -/
def validate_location (loc : Option ℚ × Option ℚ) : Except String (ℚ × ℚ) :=
  match loc with
  | (some a, some b) => Except.ok (a, b)
  | _ => Except.error "Location values cannot contain NaNs"

/-- create_map including the folium.Map construction boundary: the folium
map is built from the computed center, and folium validates that location
on construction, so a NaN center surfaces the renderer's ValueError to
the caller instead of a composed document. -/
def create_map_checked (df_points : DataFrame) (df_routes : Option DataFrame) :
    Except String MapDoc :=
  match validate_location (create_map df_points df_routes).center with
  | Except.ok _ => Except.ok (create_map df_points df_routes)
  | Except.error e => Except.error e

/-- One piece of the summary report HTML, kept structured: the category
table, the no-category note, the route-section heading, or the route-type
table. -/
inductive SummaryPart where
  | catTable (rows : List (Cell × Nat))
  | noCategoryNote
  | routeHeader
  | routeTable (rows : List (String × Nat))
deriving DecidableEq

/-- The route_type column after dropna, stringification and strip, as the
route-counts pipeline of build_summary_table_html prepares it. -/
def routeTypeVals (df : DataFrame) : List String :=
  (colCells df "route_type").filterMap (fun c =>
    match c with
    | Cell.na => none
    | c => some (strTrim (Cell.toStr c)))

/-- build_summary_table_html: the category table (or a note when the
category column is absent), then, only for a non-empty routes frame with a
route_type column and a non-empty counts result, the route-type heading and
table. -/
def build_summary_table_html (df_points : DataFrame) (df_routes : DataFrame) :
    List SummaryPart :=
  let catParts :=
    if df_points.columns.contains "category" then
      [SummaryPart.catTable (value_counts (colCells df_points "category"))]
    else
      [SummaryPart.noCategoryNote]
  let routeParts :=
    if !df_routes.isEmptyDF && df_routes.columns.contains "route_type" then
      let rc := value_counts_str (routeTypeVals df_routes)
      if rc.isEmpty then [] else [SummaryPart.routeHeader, SummaryPart.routeTable rc]
    else []
  catParts ++ routeParts

/-- A named, colored route of get_routes_data. -/
structure RouteData where
  name : String
  color : String
  points : List (ℚ × ℚ)
deriving DecidableEq

/-- The two fixed demo routes of city_story_map. -/
def get_routes_data : List RouteData :=
  [{ name := "Tram Line", color := "blue"
     points := [(45.523, -122.676), (45.521, -122.681), (45.518, -122.683),
                (45.515, -122.682), (45.511, -122.678)] },
   { name := "Bus Route", color := "red"
     points := [(45.528, -122.675), (45.525, -122.672), (45.521, -122.670),
                (45.517, -122.673), (45.514, -122.677)] }]

/-- A landmark of get_landmarks_data. -/
structure Landmark where
  name : String
  kind : String
  lat : ℚ
  lon : ℚ
deriving DecidableEq

/-- The five fixed demo landmarks of city_story_map. -/
def get_landmarks_data : List Landmark :=
  [{ name := "City Library", kind := "library", lat := 45.518, lon := -122.678 },
   { name := "Central Park", kind := "park", lat := 45.521, lon := -122.685 },
   { name := "Art Museum", kind := "museum", lat := 45.522, lon := -122.680 },
   { name := "Historic Square", kind := "square", lat := 45.516, lon := -122.676 },
   { name := "Riverside Market", kind := "market", lat := 45.513, lon := -122.671 }]

/-- One toggleable layer of the composed city map. -/
inductive CityLayer where
  | tile (name : String)
  | routeGroup (name : String) (color : String) (points : List (ℚ × ℚ)) (start : ℚ × ℚ)
  | landmarkGroup (name : String) (markers : List (String × ℚ × ℚ))
  | heat (pts : List (ℚ × ℚ × ℚ))
  | control
deriving DecidableEq

/-- create_base_map: the tile layer named "City Map". -/
def create_base_map : List CityLayer := [CityLayer.tile "City Map"]

/-- add_routes: one feature group per route, with its polyline and a marker
at the first point. -/
def add_routes (m : List CityLayer) (routes : List RouteData) : List CityLayer :=
  m ++ routes.map (fun r =>
    CityLayer.routeGroup r.name r.color r.points (r.points.headD (0, 0)))

/-- add_landmarks: one feature group per kind, in first-occurrence order
(python dict insertion order), with the markers of that kind in row
order. -/
def add_landmarks (m : List CityLayer) (lms : List Landmark) : List CityLayer :=
  m ++ (firstSeenKeys (lms.map Landmark.kind)).map (fun k =>
    CityLayer.landmarkGroup ("Landmarks: " ++ strCapitalize k)
      ((lms.filter (fun l => l.kind == k)).map (fun l => (l.name, l.lat, l.lon))))

/-- add_heatmap_layer. -/
def add_heatmap_layer (m : List CityLayer) (pts : List (ℚ × ℚ × ℚ)) : List CityLayer :=
  m ++ [CityLayer.heat pts]

/-- build_map of city_story_map: base map, the per-mode optional layers,
and the layer control; returns the layer list and the per-mode output file
name.  The randomly generated heat samples are injected as an argument. -/
def build_map (heat : List (ℚ × ℚ × ℚ)) (mode : String) : List CityLayer × String :=
  let m := create_base_map
  let m := if mode = "routes" ∨ mode = "full" then add_routes m get_routes_data else m
  let m := if mode = "landmarks" ∨ mode = "full" then add_landmarks m get_landmarks_data else m
  let m := if mode = "heatmap" ∨ mode = "full" then add_heatmap_layer m heat else m
  (m ++ [CityLayer.control], "city_story_map_" ++ mode ++ ".html")

/-- The recognized CLI modes. -/
def validModes : List String := ["base", "routes", "landmarks", "heatmap", "full"]

/-- The CLI entry of city_story_map: lowercase the argument (default
"base"), replace an unrecognized mode with "full", and build. -/
def cliMain (heat : List (ℚ × ℚ × ℚ)) (arg : Option String) : List CityLayer × String :=
  let mode := match arg with | some s => strLower s | none => "base"
  let mode := if validModes.contains mode then mode else "full"
  build_map heat mode

/-- A typed input row of the points dataset, used to state theorems about
well-formed point collections. -/
structure PointInput where
  name : String
  category : String
  lat : ℚ
  lon : ℚ
deriving DecidableEq

/-- The row of one point input. -/
def PointInput.toRow (p : PointInput) : Row :=
  [("name", Cell.str p.name), ("category", Cell.str p.category),
   ("latitude", Cell.num p.lat), ("longitude", Cell.num p.lon)]

/-- The points frame of a list of point inputs. -/
def mkPointsDF (ps : List PointInput) : DataFrame :=
  { columns := ["name", "category", "latitude", "longitude"]
    rows := ps.map PointInput.toRow }

/-- A typed input row of the routes dataset. -/
structure RouteInput where
  rname : String
  rtype : String
  seq : ℚ
  lat : ℚ
  lon : ℚ
deriving DecidableEq

/-- The row of one route sample input. -/
def RouteInput.toRow (s : RouteInput) : Row :=
  [("route_name", Cell.str s.rname), ("route_type", Cell.str s.rtype),
   ("seq", Cell.num s.seq), ("latitude", Cell.num s.lat), ("longitude", Cell.num s.lon)]

/-- The routes frame of a list of route sample inputs. -/
def mkRoutesDF (ss : List RouteInput) : DataFrame :=
  { columns := ["route_name", "route_type", "latitude", "longitude", "seq"]
    rows := ss.map RouteInput.toRow }

/-- A row survives the coordinate cleanup of load_data exactly when both
coordinates coerce to numbers. -/
def rowCoordOk (r : Row) : Bool :=
  (getCell r "latitude").toNumeric != Cell.na && (getCell r "longitude").toNumeric != Cell.na

/-- The coordinate coercion of load_data applied to one row. -/
def coerceRowLatLon (r : Row) : Row :=
  coerceRowCol "longitude" (coerceRowCol "latitude" r)

/-- Whether the pattern list occurs at the head of the character list. -/
def listStarts : List Char → List Char → Bool
  | [], _ => true
  | _ :: _, [] => false
  | p :: ps, c :: cs => p == c && listStarts ps cs

/-- Whether the pattern list occurs anywhere in the character list. -/
def listHas (pat : List Char) : List Char → Bool
  | [] => pat.isEmpty
  | c :: cs => listStarts pat (c :: cs) || listHas pat cs

/-- Whether sub occurs as a substring of s. -/
def strContains (s sub : String) : Bool := listHas sub.data s.data

deriving instance DecidableEq for Except

/-! Helper lemmas about the embedded operations. -/

theorem mem_firstSeenGo {α : Type} [DecidableEq α] (l : List α) :
    ∀ (seen : List α) (a : α), a ∈ firstSeenGo seen l ↔ (a ∈ l ∧ a ∉ seen) := by
  induction l with
  | nil => intro seen a; simp [firstSeenGo]
  | cons x xs ih =>
    intro seen a
    by_cases hx : x ∈ seen
    · rw [firstSeenGo, if_pos hx, ih]
      constructor
      · rintro ⟨h1, h2⟩
        exact ⟨List.mem_cons_of_mem x h1, h2⟩
      · rintro ⟨h1, h2⟩
        rcases List.mem_cons.mp h1 with rfl | h1
        · exact absurd hx h2
        · exact ⟨h1, h2⟩
    · rw [firstSeenGo, if_neg hx]
      rw [List.mem_cons, ih]
      constructor
      · rintro (rfl | ⟨h1, h2⟩)
        · exact ⟨List.mem_cons_self a xs, hx⟩
        · exact ⟨List.mem_cons_of_mem x h1,
            fun hs => h2 (List.mem_cons_of_mem x hs)⟩
      · rintro ⟨h1, h2⟩
        by_cases hax : a = x
        · exact Or.inl hax
        · refine Or.inr ⟨(List.mem_cons.mp h1).resolve_left hax, fun hs => ?_⟩
          rcases List.mem_cons.mp hs with h | h
          · exact hax h
          · exact h2 h

theorem nodup_firstSeenGo {α : Type} [DecidableEq α] (l : List α) :
    ∀ seen : List α, (firstSeenGo seen l).Nodup := by
  induction l with
  | nil => intro seen; simp [firstSeenGo]
  | cons x xs ih =>
    intro seen
    by_cases hx : x ∈ seen
    · rw [firstSeenGo, if_pos hx]
      exact ih seen
    · rw [firstSeenGo, if_neg hx]
      refine List.nodup_cons.mpr ⟨fun hmem => ?_, ih _⟩
      exact ((mem_firstSeenGo xs (x :: seen) x).mp hmem).2 (List.mem_cons_self x _)

theorem mem_firstSeenKeys {α : Type} [DecidableEq α] (l : List α) (a : α) :
    a ∈ firstSeenKeys l ↔ a ∈ l := by
  rw [firstSeenKeys, mem_firstSeenGo]
  simp

theorem nodup_firstSeenKeys {α : Type} [DecidableEq α] (l : List α) :
    (firstSeenKeys l).Nodup :=
  nodup_firstSeenGo l []

/-- Stability of the embedded stable sort, in filter form: the elements
satisfying a predicate on which the order relation is indifferent keep
exactly their original relative order. -/
theorem filter_insertionSort_ties {α : Type} (r : α → α → Prop) [DecidableRel r]
    (p : α → Bool) (hp : ∀ a b, p a = true → p b = true → r a b) (l : List α) :
    (List.insertionSort r l).filter p = l.filter p := by
  have hpair : (l.filter p).Pairwise r := by
    apply List.pairwise_of_forall_mem_list
    intro a ha b hb
    exact hp a b (List.mem_filter.mp ha).2 (List.mem_filter.mp hb).2
  have hsub : List.Sublist (l.filter p) (List.insertionSort r l) :=
    List.sublist_insertionSort hpair (List.filter_sublist l)
  have hself : (l.filter p).filter p = l.filter p :=
    List.filter_eq_self.mpr (fun a ha => (List.mem_filter.mp ha).2)
  have hforward : List.Sublist (l.filter p) ((List.insertionSort r l).filter p) := by
    have h2 := hsub.filter p
    rwa [hself] at h2
  have hperm : List.Perm ((List.insertionSort r l).filter p) (l.filter p) :=
    (List.perm_insertionSort r l).filter p
  exact (hforward.eq_of_length hperm.length_eq.symm).symm

/-- Looking up a pair of the color table finds its color. -/
theorem lookup_typeColors_of_mem {k c : String} (h : (k, c) ∈ typeColors) :
    typeColors.lookup k = some c := by
  simp only [typeColors, List.mem_cons, List.mem_singleton, Prod.mk.injEq,
    List.not_mem_nil, or_false] at h
  rcases h with ⟨rfl, rfl⟩ | ⟨rfl, rfl⟩ | ⟨rfl, rfl⟩ | ⟨rfl, rfl⟩ <;> decide

/-! Claim theorems. -/

/-- C4: color resolution is total and deterministic: on any input string it
returns the mapped color when the stripped, lowercased string is a known
key and the single shared default otherwise; the result is always one of
the known colors and never empty; "Bus" resolves to the bus color red,
and the unknown "ferry" resolves to the default orange. -/
theorem resolveColor_spec :
    (∀ s : String,
      resolveColor s ∈ ["blue", "red", "green", "purple", "orange"]
      ∧ resolveColor s ≠ ""
      ∧ (∀ c : String, (strLower (strTrim s), c) ∈ typeColors → resolveColor s = c)
      ∧ (strLower (strTrim s) ∉ typeColors.map Prod.fst →
          resolveColor s = defaultColor))
    ∧ resolveColor "Bus" = "red"
    ∧ resolveColor "ferry" = "orange" := by
  refine ⟨fun s => ?_, by decide, by decide⟩
  have hval : resolveColor s = (typeColors.lookup (strLower (strTrim s))).getD defaultColor :=
    rfl
  by_cases h1 : strLower (strTrim s) = "tram"
  · rw [hval, h1]
    exact ⟨by decide, by decide, fun c hc => by simp [lookup_typeColors_of_mem hc],
      fun hno => absurd (by decide) hno⟩
  by_cases h2 : strLower (strTrim s) = "bus"
  · rw [hval, h2]
    exact ⟨by decide, by decide, fun c hc => by simp [lookup_typeColors_of_mem hc],
      fun hno => absurd (by decide) hno⟩
  by_cases h3 : strLower (strTrim s) = "walk"
  · rw [hval, h3]
    exact ⟨by decide, by decide, fun c hc => by simp [lookup_typeColors_of_mem hc],
      fun hno => absurd (by decide) hno⟩
  by_cases h4 : strLower (strTrim s) = "bike"
  · rw [hval, h4]
    exact ⟨by decide, by decide, fun c hc => by simp [lookup_typeColors_of_mem hc],
      fun hno => absurd (by decide) hno⟩
  · have b1 : (strLower (strTrim s) == "tram") = false := beq_eq_false_iff_ne.mpr h1
    have b2 : (strLower (strTrim s) == "bus") = false := beq_eq_false_iff_ne.mpr h2
    have b3 : (strLower (strTrim s) == "walk") = false := beq_eq_false_iff_ne.mpr h3
    have b4 : (strLower (strTrim s) == "bike") = false := beq_eq_false_iff_ne.mpr h4
    have hlook : typeColors.lookup (strLower (strTrim s)) = none := by
      simp [typeColors, List.lookup, b1, b2, b3, b4]
    rw [hval, hlook]
    refine ⟨by decide, by decide, fun c hc => ?_, fun _ => rfl⟩
    have hsome := lookup_typeColors_of_mem hc
    rw [hlook] at hsome
    exact Option.noConfusion hsome

/-- Witness for C4 at concrete inputs: "Bus" maps to red, and for "FERRY"
(whose normalization is not a key of the table) the resolver returns the
default color. -/
theorem resolveColor_spec_witness :
    resolveColor "Bus" = "red" ∧ resolveColor "FERRY" = defaultColor :=
  ⟨resolveColor_spec.2.1, (resolveColor_spec.1 "FERRY").2.2.2 (by decide)⟩

theorem colCells_mkPointsDF_lat (ps : List PointInput) :
    colCells (mkPointsDF ps) "latitude" = ps.map (fun p => Cell.num p.lat) := by
  unfold colCells mkPointsDF
  rw [List.map_map]
  exact List.map_congr_left (fun a _ => rfl)

theorem colCells_mkPointsDF_lon (ps : List PointInput) :
    colCells (mkPointsDF ps) "longitude" = ps.map (fun p => Cell.num p.lon) := by
  unfold colCells mkPointsDF
  rw [List.map_map]
  exact List.map_congr_left (fun a _ => rfl)

theorem rowsCells_mkRoutesDF_lat (rs : List RouteInput) :
    (mkRoutesDF rs).rows.map (fun r => getCell r "latitude") =
      rs.map (fun s => Cell.num s.lat) := by
  unfold mkRoutesDF
  rw [List.map_map]
  exact List.map_congr_left (fun a _ => rfl)

theorem rowsCells_mkRoutesDF_lon (rs : List RouteInput) :
    (mkRoutesDF rs).rows.map (fun r => getCell r "longitude") =
      rs.map (fun s => Cell.num s.lon) := by
  unfold mkRoutesDF
  rw [List.map_map]
  exact List.map_congr_left (fun a _ => rfl)

theorem numericVals_map_num {α : Type} (f : α → ℚ) (l : List α) :
    numericVals (l.map (fun a => Cell.num (f a))) = l.map f := by
  induction l with
  | nil => rfl
  | cons a t ih =>
    unfold numericVals at ih ⊢
    simpa [List.filterMap_cons] using ih

theorem seriesMean_of_numeric (cells : List Cell) (v : List ℚ)
    (hc : numericVals cells = v) (hv : v ≠ []) :
    seriesMean cells = some (v.sum / (v.length : ℚ)) := by
  unfold seriesMean
  rw [hc, if_neg (by simpa using hv)]

/-- C1: the composed map center is the unweighted arithmetic mean of all
latitudes, and of all longitudes, over the union of the point collection
and the (possibly empty) route-sample collection: every contributing point
counts equally regardless of which collection it came from. -/
theorem create_map_center_is_mean (ps : List PointInput) (rs : List RouteInput)
    (h : ps ≠ []) :
    (create_map (mkPointsDF ps) (some (mkRoutesDF rs))).center =
      (some (((ps.map PointInput.lat).sum + (rs.map RouteInput.lat).sum) /
        ((ps.length + rs.length : ℕ) : ℚ)),
       some (((ps.map PointInput.lon).sum + (rs.map RouteInput.lon).sum) /
        ((ps.length + rs.length : ℕ) : ℚ))) := by
  rcases eq_or_ne rs [] with rfl | hrs
  · have hempty : (mkRoutesDF []).isEmptyDF = true := rfl
    simp only [create_map, hempty, if_pos]
    rw [List.append_nil, List.append_nil]
    rw [seriesMean_of_numeric _ (ps.map PointInput.lat)
        (by rw [colCells_mkPointsDF_lat]; exact numericVals_map_num _ _)
        (by simpa using h),
      seriesMean_of_numeric _ (ps.map PointInput.lon)
        (by rw [colCells_mkPointsDF_lon]; exact numericVals_map_num _ _)
        (by simpa using h)]
    simp
  · have hempty : (mkRoutesDF rs).isEmptyDF = false := by
      unfold DataFrame.isEmptyDF mkRoutesDF
      simp [hrs]
    simp only [create_map, hempty, Bool.false_eq_true, if_false]
    rw [seriesMean_of_numeric _ (ps.map PointInput.lat ++ rs.map RouteInput.lat)
        (by rw [colCells_mkPointsDF_lat, rowsCells_mkRoutesDF_lat,
              ← numericVals_map_num PointInput.lat ps,
              ← numericVals_map_num RouteInput.lat rs]
            exact (List.filterMap_append _ _ _))
        (by simp [h]),
      seriesMean_of_numeric _ (ps.map PointInput.lon ++ rs.map RouteInput.lon)
        (by rw [colCells_mkPointsDF_lon, rowsCells_mkRoutesDF_lon,
              ← numericVals_map_num PointInput.lon ps,
              ← numericVals_map_num RouteInput.lon rs]
            exact (List.filterMap_append _ _ _))
        (by simp [h])]
    simp [List.sum_append, List.length_append]

/-- Witness for C1: two points (1,2) and (3,4) with no route samples give
the center (2, 3). -/
theorem create_map_center_is_mean_witness :
    (create_map (mkPointsDF [⟨"A", "poi", 1, 2⟩, ⟨"B", "poi", 3, 4⟩])
      (some (mkRoutesDF []))).center = (some 2, some 3) := by
  have h := create_map_center_is_mean [⟨"A", "poi", 1, 2⟩, ⟨"B", "poi", 3, 4⟩] []
    (by decide)
  rw [h]
  norm_num

/-- C2 counterexample: with both collections empty, the centroid
computation itself does not fail and raises no EmptyInputError — the mean
of no values completes with NaN, so the composed center is (NaN, NaN) —
and the fatal error the caller then sees is the renderer's own NaN
rejection, raised by folium.Map's location validation, not an error of
the centroid computation. -/
theorem centroid_empty_no_error_counterexample :
    seriesMean ([] : List Cell) = none
    ∧ (create_map (mkPointsDF []) (some (mkRoutesDF []))).center = (none, none)
    ∧ create_map_checked (mkPointsDF []) (some (mkRoutesDF [])) =
        Except.error "Location values cannot contain NaNs" :=
  ⟨rfl, by decide, by decide⟩

/-- C2 amended: with both collections empty (the points frame carrying its
coordinate columns but no rows, and the routes input missing or empty),
centroid computation does not fail: the mean of an empty series is NaN,
giving the center (NaN, NaN).  The composition then fails fatally when
folium.Map validates that center, so the caller never receives a center —
but the surfaced error is the renderer's NaN ValueError, not an
EmptyInputError of the centroid computation, and there is no
fallback-center parameter to supply. -/
theorem create_map_checked_empty_fails (dfp : DataFrame) (dfr : Option DataFrame)
    (_hlat : "latitude" ∈ dfp.columns) (_hlon : "longitude" ∈ dfp.columns)
    (hp : dfp.rows = [])
    (hr : dfr = none ∨ ∃ df, dfr = some df ∧ df.rows = []) :
    (create_map dfp dfr).center = (none, none)
    ∧ create_map_checked dfp dfr =
        Except.error "Location values cannot contain NaNs" := by
  have hcol : ∀ c, colCells dfp c = [] := by
    intro c
    unfold colCells
    rw [hp]
    rfl
  have hcenter : (create_map dfp dfr).center = (none, none) := by
    rcases hr with rfl | ⟨df, rfl, hdf⟩
    · simp [create_map, hcol, seriesMean, numericVals, hp]
    · have hempty : df.isEmptyDF = true := by
        unfold DataFrame.isEmptyDF
        simp [hdf]
      simp [create_map, hcol, hempty, seriesMean, numericVals, hp]
  refine ⟨hcenter, ?_⟩
  unfold create_map_checked
  rw [hcenter]
  rfl

/-- Witness for C2's amended statement: an empty points frame with its
coordinate columns and a missing routes input. -/
theorem create_map_checked_empty_fails_witness :
    create_map_checked (mkPointsDF []) none =
      Except.error "Location values cannot contain NaNs" :=
  (create_map_checked_empty_fails (mkPointsDF []) none (by decide) (by decide)
    rfl (Or.inl rfl)).2

theorem getCell_coerceRowCol (c c' : String) (r : Row) :
    getCell (coerceRowCol c r) c' =
      if c' = c then (getCell r c').toNumeric else getCell r c' := by
  induction r with
  | nil =>
    by_cases h : c' = c <;> simp [coerceRowCol, getCell, Cell.toNumeric, h]
  | cons kv t ih =>
    obtain ⟨k, v⟩ := kv
    by_cases hkc : k = c
    · subst hkc
      have hhead : coerceRowCol k ((k, v) :: t) = (k, v.toNumeric) :: coerceRowCol k t := by
        simp [coerceRowCol]
      rw [hhead]
      by_cases hck : c' = k
      · subst hck
        simp [getCell, List.lookup]
      · have hb : (c' == k) = false := beq_eq_false_iff_ne.mpr hck
        simp only [getCell, List.lookup, hb] at ih ⊢
        exact ih
    · have hhead : coerceRowCol c ((k, v) :: t) = (k, v) :: coerceRowCol c t := by
        simp [coerceRowCol, hkc]
      rw [hhead]
      by_cases hck : c' = k
      · subst hck
        have hne : ¬ c' = c := hkc
        simp [getCell, List.lookup, hne]
      · have hb : (c' == k) = false := beq_eq_false_iff_ne.mpr hck
        simp only [getCell, List.lookup, hb] at ih ⊢
        exact ih

theorem and_ne_na_toNumeric (x : Cell) :
    ((x != Cell.na) && (x.toNumeric != Cell.na)) = (x.toNumeric != Cell.na) := by
  cases x with
  | num q => rfl
  | na => rfl
  | str s =>
    rcases hp : parseDecimal s with _ | v <;> simp [Cell.toNumeric, hp]

theorem getCell_coerceRowLatLon_lat (r : Row) :
    getCell (coerceRowLatLon r) "latitude" = (getCell r "latitude").toNumeric := by
  unfold coerceRowLatLon
  rw [getCell_coerceRowCol, if_neg (by decide), getCell_coerceRowCol, if_pos rfl]

theorem getCell_coerceRowLatLon_lon (r : Row) :
    getCell (coerceRowLatLon r) "longitude" = (getCell r "longitude").toNumeric := by
  unfold coerceRowLatLon
  rw [getCell_coerceRowCol, if_pos rfl, getCell_coerceRowCol, if_neg (by decide)]

theorem listStarts_append (pat ys : List Char) : listStarts pat (pat ++ ys) = true := by
  induction pat with
  | nil => rfl
  | cons p ps ih => simp [listStarts, ih]

theorem listStarts_mono (pat : List Char) :
    ∀ xs ys, listStarts pat xs = true → listStarts pat (xs ++ ys) = true := by
  induction pat with
  | nil => intro xs ys _; rfl
  | cons p ps ih =>
    intro xs ys h
    cases xs with
    | nil => simp [listStarts] at h
    | cons x xt =>
      simp only [listStarts, Bool.and_eq_true] at h
      simp only [List.cons_append, listStarts, Bool.and_eq_true]
      exact ⟨h.1, ih xt ys h.2⟩

theorem listHas_nil_pat (ys : List Char) : listHas [] ys = true := by
  cases ys <;> simp [listHas, listStarts, List.isEmpty]

theorem listHas_append_left (pat : List Char) :
    ∀ xs ys, listHas pat xs = true → listHas pat (xs ++ ys) = true := by
  intro xs
  induction xs with
  | nil =>
    intro ys h
    have hpat : pat = [] := by simpa [listHas] using h
    subst hpat
    exact listHas_nil_pat ys
  | cons x xt ih =>
    intro ys h
    simp only [listHas, Bool.or_eq_true] at h
    simp only [List.cons_append, listHas, Bool.or_eq_true]
    rcases h with h | h
    · exact Or.inl (by simpa [List.cons_append] using listStarts_mono pat (x :: xt) ys h)
    · exact Or.inr (ih ys h)

theorem listHas_append_right (pat : List Char) :
    ∀ xs ys, listHas pat ys = true → listHas pat (xs ++ ys) = true := by
  intro xs
  induction xs with
  | nil => intro ys h; simpa using h
  | cons x xt ih =>
    intro ys h
    simp only [List.cons_append, listHas, Bool.or_eq_true]
    exact Or.inr (ih ys h)

theorem data_append_str (s t : String) : (s ++ t).data = s.data ++ t.data := rfl

theorem strContains_refl (c : String) : strContains c c = true := by
  unfold strContains
  cases h : c.data with
  | nil => simp [listHas]
  | cons x xs =>
    simp only [listHas, Bool.or_eq_true]
    refine Or.inl ?_
    have h2 := listStarts_append (x :: xs) []
    rwa [List.append_nil] at h2

theorem strContains_append_left (s t sub : String) (h : strContains s sub = true) :
    strContains (s ++ t) sub = true := by
  unfold strContains at h ⊢
  rw [data_append_str]
  exact listHas_append_left _ _ _ h

theorem strContains_append_right (s t sub : String) (h : strContains t sub = true) :
    strContains (s ++ t) sub = true := by
  unfold strContains at h ⊢
  rw [data_append_str]
  exact listHas_append_right _ _ _ h

theorem strContains_intercalate_go (c : String) :
    ∀ (as : List String) (acc : String),
      (strContains acc c = true ∨ c ∈ as) →
      strContains (String.intercalate.go acc ", " as) c = true := by
  intro as
  induction as with
  | nil =>
    intro acc h
    rcases h with h | h
    · simpa [String.intercalate.go] using h
    · simp at h
  | cons a at2 ih =>
    intro acc h
    show strContains (String.intercalate.go (acc ++ ", " ++ a) ", " at2) c = true
    apply ih
    rcases h with h | h
    · exact Or.inl (strContains_append_left _ _ _ (strContains_append_left _ _ _ h))
    · rcases List.mem_cons.mp h with rfl | h
      · exact Or.inl (strContains_append_right _ _ _ (strContains_refl c))
      · exact Or.inr h

theorem strContains_mem_intercalate (l : List String) (c : String) (hc : c ∈ l) :
    strContains (String.intercalate ", " l) c = true := by
  cases l with
  | nil => simp at hc
  | cons a as =>
    show strContains (String.intercalate.go a ", " as) c = true
    apply strContains_intercalate_go
    rcases List.mem_cons.mp hc with rfl | h
    · exact Or.inl (strContains_refl c)
    · exact Or.inr h

theorem coordPred_absorb (x y : Cell) :
    (((x.toNumeric != Cell.na) && (y.toNumeric != Cell.na)) &&
      ((x != Cell.na) && (y != Cell.na))) =
    ((x.toNumeric != Cell.na) && (y.toNumeric != Cell.na)) := by
  have hx := and_ne_na_toNumeric x
  have hy := and_ne_na_toNumeric y
  cases hbx : (x.toNumeric != Cell.na) <;> cases hby : (y.toNumeric != Cell.na) <;>
    simp_all

/-- The row cleanup of load_data is exactly: keep the rows whose two
coordinates coerce to numbers, and coerce those two cells in the kept
rows. -/
theorem load_data_rows_eq (rows : List Row) :
    dropMissingLatLon (coerceNumericCol "longitude" (coerceNumericCol "latitude"
      (dropMissingLatLon rows))) =
    (rows.filter rowCoordOk).map coerceRowLatLon := by
  unfold coerceNumericCol dropMissingLatLon
  rw [List.map_map, List.filter_map, List.filter_filter]
  have hfun : ∀ r : Row,
      coerceRowCol "longitude" (coerceRowCol "latitude" r) = coerceRowLatLon r :=
    fun r => rfl
  have hpred : ∀ r : Row,
      ((((fun r => (getCell r "latitude" != Cell.na) && (getCell r "longitude" != Cell.na)) ∘
          (coerceRowCol "longitude" ∘ coerceRowCol "latitude")) r) &&
        ((getCell r "latitude" != Cell.na) && (getCell r "longitude" != Cell.na))) =
      rowCoordOk r := by
    intro r
    have h1 : getCell (coerceRowCol "longitude" (coerceRowCol "latitude" r)) "latitude" =
        (getCell r "latitude").toNumeric := getCell_coerceRowLatLon_lat r
    have h2 : getCell (coerceRowCol "longitude" (coerceRowCol "latitude" r)) "longitude" =
        (getCell r "longitude").toNumeric := getCell_coerceRowLatLon_lon r
    show ((getCell (coerceRowCol "longitude" (coerceRowCol "latitude" r)) "latitude" !=
        Cell.na) && (getCell (coerceRowCol "longitude" (coerceRowCol "latitude" r))
          "longitude" != Cell.na) &&
        ((getCell r "latitude" != Cell.na) && (getCell r "longitude" != Cell.na))) =
      rowCoordOk r
    rw [h1, h2]
    exact coordPred_absorb (getCell r "latitude") (getCell r "longitude")
  rw [List.filter_congr (fun r _ => hpred r)]
  exact List.map_congr_left (fun r _ => hfun r)

/-- C5: schema-level validation of the points dataset is fatal: when some
required field is absent from the schema itself, load_data fails with an
error message naming each missing field and produces no data; when all
required fields are present, load_data succeeds, dropping exactly the rows
whose latitude or longitude is missing or fails numeric coercion and
keeping every other row (with coordinates coerced). -/
theorem load_data_spec (df : DataFrame) :
    (missingCols requiredPointCols df ≠ [] →
      load_data df = Except.error ("Missing required columns: " ++
        String.intercalate ", " (missingCols requiredPointCols df))
      ∧ (∀ c ∈ missingCols requiredPointCols df,
          strContains ("Missing required columns: " ++
            String.intercalate ", " (missingCols requiredPointCols df)) c = true))
    ∧ (missingCols requiredPointCols df = [] →
      load_data df = Except.ok
        { columns := df.columns
          rows := (df.rows.filter rowCoordOk).map coerceRowLatLon }) := by
  constructor
  · intro h
    have hb : (missingCols requiredPointCols df).isEmpty = false := by
      simp [List.isEmpty_iff, h]
    constructor
    · simp only [load_data]
      rw [hb]
      simp
    · intro c hc
      exact strContains_append_right _ _ _ (strContains_mem_intercalate _ c hc)
  · intro h
    have hb : (missingCols requiredPointCols df).isEmpty = true := by
      simp [List.isEmpty_iff, h]
    simp only [load_data]
    rw [hb]
    rw [if_pos rfl]
    rw [load_data_rows_eq]

/-- Witness for C5: a frame missing the longitude column errors with a
message naming it; a well-formed frame with one non-numeric latitude keeps
exactly the other rows. -/
theorem load_data_spec_witness :
    load_data ⟨["name", "category", "latitude"], []⟩ =
      Except.error "Missing required columns: longitude"
    ∧ strContains "Missing required columns: longitude" "longitude" = true
    ∧ load_data ⟨["name", "category", "latitude", "longitude"],
        [[("name", Cell.str "A"), ("category", Cell.str "x"),
          ("latitude", Cell.num 1), ("longitude", Cell.num 2)],
         [("name", Cell.str "B"), ("category", Cell.str "x"),
          ("latitude", Cell.str "abc"), ("longitude", Cell.num 4)],
         [("name", Cell.str "C"), ("category", Cell.str "x"),
          ("latitude", Cell.num 5), ("longitude", Cell.num 6)]]⟩ =
      Except.ok ⟨["name", "category", "latitude", "longitude"],
        [[("name", Cell.str "A"), ("category", Cell.str "x"),
          ("latitude", Cell.num 1), ("longitude", Cell.num 2)],
         [("name", Cell.str "C"), ("category", Cell.str "x"),
          ("latitude", Cell.num 5), ("longitude", Cell.num 6)]]⟩ := by
  refine ⟨?_, ?_, ?_⟩
  · have h := (load_data_spec ⟨["name", "category", "latitude"], []⟩).1 (by decide)
    rw [h.1]
    decide
  · have h := (load_data_spec ⟨["name", "category", "latitude"], []⟩).1 (by decide)
    have h2 := h.2 "longitude" (by decide)
    simpa using h2
  · have h := (load_data_spec ⟨["name", "category", "latitude", "longitude"],
      [[("name", Cell.str "A"), ("category", Cell.str "x"),
        ("latitude", Cell.num 1), ("longitude", Cell.num 2)],
       [("name", Cell.str "B"), ("category", Cell.str "x"),
        ("latitude", Cell.str "abc"), ("longitude", Cell.num 4)],
       [("name", Cell.str "C"), ("category", Cell.str "x"),
        ("latitude", Cell.num 5), ("longitude", Cell.num 6)]]⟩).2 (by decide)
    rw [h]
    decide

/-- C6: a missing routes file loads as an empty route dataset rather than
an error, and for every empty route dataset the composed map has no
polyline layer and the summary contains neither the route-section heading
nor a route-type table (the table is omitted entirely). -/
theorem routes_optional_spec :
    load_routes none = Except.ok { columns := [], rows := [] }
    ∧ (∀ (dfp dfr : DataFrame), dfr.rows = [] →
        (create_map dfp (some dfr)).polylines = []
        ∧ (∀ part ∈ build_summary_table_html dfp dfr,
            part ≠ SummaryPart.routeHeader ∧ ∀ rs, part ≠ SummaryPart.routeTable rs)) := by
  refine ⟨rfl, fun dfp dfr h => ?_⟩
  have hempty : dfr.isEmptyDF = true := by
    unfold DataFrame.isEmptyDF
    simp [h]
  constructor
  · simp [create_map, hempty]
  · intro part hpart
    by_cases hcat : "category" ∈ dfp.columns
    · simp [build_summary_table_html, hempty, hcat] at hpart
      subst hpart
      exact ⟨by simp, fun rs => by simp⟩
    · simp [build_summary_table_html, hempty, hcat] at hpart
      subst hpart
      exact ⟨by simp, fun rs => by simp⟩

/-- Witness for C6 at concrete frames: one point, an empty routes frame. -/
theorem routes_optional_spec_witness :
    (create_map (mkPointsDF [⟨"A", "poi", 1, 2⟩]) (some (mkRoutesDF []))).polylines = [] :=
  ((routes_optional_spec).2 (mkPointsDF [⟨"A", "poi", 1, 2⟩]) (mkRoutesDF []) rfl).1

/-- C7: the category summary table has exactly one row per distinct
category carrying that category's count, rows are in descending count
order, and equal counts keep the first-encountered-group order of the
aggregation pass; ["park","museum","park"] yields exactly ("park",2) then
("museum",1), also through the full summary builder. -/
theorem category_table_spec :
    (∀ (cats : List String) (t : List (Cell × Nat)),
      t = value_counts (cats.map Cell.str) →
      (t.map Prod.fst).Nodup
      ∧ (∀ c : Cell, c ∈ t.map Prod.fst ↔ c ∈ cats.map Cell.str)
      ∧ (∀ p ∈ t, p.2 = (cats.map Cell.str).count p.1)
      ∧ (t.map Prod.snd).Sorted (· ≥ ·)
      ∧ (∀ n : Nat, t.filter (fun p => p.2 == n) =
          (countPairs (cats.map Cell.str)
            ((firstSeenKeys (cats.map Cell.str)).filter (fun k => k != Cell.na))).filter
            (fun p => p.2 == n)))
    ∧ value_counts (["park", "museum", "park"].map Cell.str) =
        [(Cell.str "park", 2), (Cell.str "museum", 1)]
    ∧ build_summary_table_html
        (mkPointsDF [⟨"P1", "park", 1, 2⟩, ⟨"P2", "museum", 3, 4⟩, ⟨"P3", "park", 5, 6⟩])
        (mkRoutesDF []) =
        [SummaryPart.catTable [(Cell.str "park", 2), (Cell.str "museum", 1)]]
    ∧ value_counts (["a", "b", "b", "a", "c"].map Cell.str) =
        [(Cell.str "a", 2), (Cell.str "b", 2), (Cell.str "c", 1)] := by
  refine ⟨fun cats t ht => ?_, by decide, by decide, by decide⟩
  subst ht
  have hperm : List.Perm (value_counts (cats.map Cell.str))
      (countPairs (cats.map Cell.str)
        ((firstSeenKeys (cats.map Cell.str)).filter (fun k => k != Cell.na))) :=
    List.perm_insertionSort _ _
  have hmapfst : (countPairs (cats.map Cell.str)
      ((firstSeenKeys (cats.map Cell.str)).filter (fun k => k != Cell.na))).map Prod.fst =
      (firstSeenKeys (cats.map Cell.str)).filter (fun k => k != Cell.na) := by
    unfold countPairs
    rw [List.map_map]
    apply Eq.trans _ (List.map_id _)
    exact List.map_congr_left (fun a _ => rfl)
  have hpfst : List.Perm ((value_counts (cats.map Cell.str)).map Prod.fst)
      ((firstSeenKeys (cats.map Cell.str)).filter (fun k => k != Cell.na)) := by
    have h2 := hperm.map Prod.fst
    rwa [hmapfst] at h2
  refine ⟨?_, ?_, ?_, ?_, ?_⟩
  · exact hpfst.nodup_iff.mpr ((nodup_firstSeenKeys _).filter _)
  · intro c
    rw [hpfst.mem_iff, List.mem_filter, mem_firstSeenKeys]
    constructor
    · exact fun hc => hc.1
    · intro hc
      refine ⟨hc, ?_⟩
      obtain ⟨s, _, rfl⟩ := List.mem_map.mp hc
      simp
  · intro p hp
    have hp2 := hperm.mem_iff.mp hp
    obtain ⟨k, _, rfl⟩ := List.mem_map.mp hp2
    rfl
  · have hs := List.sorted_insertionSort (@descCountRel Cell)
      (countPairs (cats.map Cell.str)
        ((firstSeenKeys (cats.map Cell.str)).filter (fun k => k != Cell.na)))
    exact List.pairwise_map.mpr hs
  · intro n
    refine filter_insertionSort_ties descCountRel _ (fun a b ha hb => ?_) _
    have ha2 : a.2 = n := by simpa using ha
    have hb2 : b.2 = n := by simpa using hb
    unfold descCountRel
    rw [ha2, hb2]

/-- Witness for C7 at the concrete category list of the claim. -/
theorem category_table_spec_witness :
    ((value_counts (["park", "museum", "park"].map Cell.str)).map Prod.fst).Nodup
    ∧ ((value_counts (["park", "museum", "park"].map Cell.str)).map Prod.snd).Sorted
        (· ≥ ·) := by
  have h := category_table_spec.1 ["park", "museum", "park"] _ rfl
  exact ⟨h.1, h.2.2.2.1⟩

/-- C8 counterexample: a single route named R1 of type bus consisting of
three samples yields a route-type table row ("bus", 3) — the number of
samples — while the reconstructed routes of type bus number exactly 1, so
the table is not computed over reconstructed routes. -/
theorem route_table_counts_samples_counterexample :
    value_counts_str (routeTypeVals (mkRoutesDF
      [⟨"R1", "bus", 1, 1, 10⟩, ⟨"R1", "bus", 2, 2, 20⟩, ⟨"R1", "bus", 3, 3, 30⟩])) =
      [("bus", 3)]
    ∧ ((reconstructRoutes (mkRoutesDF
        [⟨"R1", "bus", 1, 1, 10⟩, ⟨"R1", "bus", 2, 2, 20⟩,
         ⟨"R1", "bus", 3, 3, 30⟩]).rows).filter (fun rt => rt.rtype == "bus")).length = 1
    ∧ (3 : Nat) ≠ 1
    ∧ build_summary_table_html (mkPointsDF [⟨"A", "poi", 1, 2⟩]) (mkRoutesDF
        [⟨"R1", "bus", 1, 1, 10⟩, ⟨"R1", "bus", 2, 2, 20⟩, ⟨"R1", "bus", 3, 3, 30⟩]) =
      [SummaryPart.catTable [(Cell.str "poi", 1)],
       SummaryPart.routeHeader, SummaryPart.routeTable [("bus", 3)]] :=
  ⟨by decide, by decide, by decide, by decide⟩

theorem routeTypeVals_mkRoutesDF (samples : List RouteInput) :
    routeTypeVals (mkRoutesDF samples) = samples.map (fun x => strTrim x.rtype) := by
  induction samples with
  | nil => rfl
  | cons a t ih =>
    unfold routeTypeVals colCells mkRoutesDF at ih ⊢
    simp only [List.map_cons, List.filterMap_cons] at ih ⊢
    rw [ih]
    rfl

/-- C8 amended: the route-type summary table is computed over the raw
route samples, not over reconstructed routes: it has one row per distinct
trimmed route-type string, each row counting the samples of that type (so
a route with n samples contributes n), in descending count order with ties
in first-encountered order. -/
theorem route_type_table_spec (samples : List RouteInput) (t : List (String × Nat))
    (ht : t = value_counts_str (routeTypeVals (mkRoutesDF samples))) :
    (t.map Prod.fst).Nodup
    ∧ (∀ s : String, s ∈ t.map Prod.fst ↔ s ∈ samples.map (fun x => strTrim x.rtype))
    ∧ (∀ p ∈ t, p.2 = (samples.map (fun x => strTrim x.rtype)).count p.1)
    ∧ (t.map Prod.snd).Sorted (· ≥ ·)
    ∧ (∀ n : Nat, t.filter (fun p => p.2 == n) =
        (countPairs (samples.map (fun x => strTrim x.rtype))
          (firstSeenKeys (samples.map (fun x => strTrim x.rtype)))).filter
          (fun p => p.2 == n)) := by
  rw [routeTypeVals_mkRoutesDF] at ht
  subst ht
  have hperm : List.Perm (value_counts_str (samples.map (fun x => strTrim x.rtype)))
      (countPairs (samples.map (fun x => strTrim x.rtype))
        (firstSeenKeys (samples.map (fun x => strTrim x.rtype)))) :=
    List.perm_insertionSort _ _
  have hmapfst : (countPairs (samples.map (fun x => strTrim x.rtype))
      (firstSeenKeys (samples.map (fun x => strTrim x.rtype)))).map Prod.fst =
      firstSeenKeys (samples.map (fun x => strTrim x.rtype)) := by
    unfold countPairs
    rw [List.map_map]
    apply Eq.trans _ (List.map_id _)
    exact List.map_congr_left (fun a _ => rfl)
  have hpfst : List.Perm
      ((value_counts_str (samples.map (fun x => strTrim x.rtype))).map Prod.fst)
      (firstSeenKeys (samples.map (fun x => strTrim x.rtype))) := by
    have h2 := hperm.map Prod.fst
    rwa [hmapfst] at h2
  refine ⟨?_, ?_, ?_, ?_, ?_⟩
  · exact hpfst.nodup_iff.mpr (nodup_firstSeenKeys _)
  · intro s
    rw [hpfst.mem_iff, mem_firstSeenKeys]
  · intro p hp
    have hp2 := hperm.mem_iff.mp hp
    obtain ⟨k, _, rfl⟩ := List.mem_map.mp hp2
    rfl
  · have hs := List.sorted_insertionSort (@descCountRel String)
      (countPairs (samples.map (fun x => strTrim x.rtype))
        (firstSeenKeys (samples.map (fun x => strTrim x.rtype))))
    exact List.pairwise_map.mpr hs
  · intro n
    refine filter_insertionSort_ties descCountRel _ (fun a b ha hb => ?_) _
    have ha2 : a.2 = n := by simpa using ha
    have hb2 : b.2 = n := by simpa using hb
    unfold descCountRel
    rw [ha2, hb2]

/-- Witness for C8's amended statement at the counterexample samples. -/
theorem route_type_table_spec_witness :
    ((value_counts_str (routeTypeVals (mkRoutesDF
      [⟨"R1", "bus", 1, 1, 10⟩, ⟨"R1", "bus", 2, 2, 20⟩,
       ⟨"R1", "bus", 3, 3, 30⟩]))).map Prod.fst).Nodup := by
  exact (route_type_table_spec
    [⟨"R1", "bus", 1, 1, 10⟩, ⟨"R1", "bus", 2, 2, 20⟩, ⟨"R1", "bus", 3, 3, 30⟩] _ rfl).1

/-- C9 counterexample: the claim quantifies over every CLI argument
outside the recognized set, but the argument "Base" — outside that set —
is lowercased by the CLI to the recognized mode "base" and therefore does
not produce the layer set of mode "full". -/
theorem cli_mode_case_counterexample :
    "Base" ∉ validModes
    ∧ (cliMain [] (some "Base")).1 ≠ (build_map [] "full").1
    ∧ (cliMain [] (some "Base")).1 = (build_map [] "base").1 :=
  ⟨by decide, by decide, rfl⟩

/-- C9 amended: the CLI lowercases its argument first; whenever the
lowercased argument is outside the recognized mode set the CLI silently
coerces it to "full", so the produced document equals a mode-"full" build,
which composes the routes, landmarks and heatmap layers all at once. -/
theorem cli_unknown_mode_full (heat : List (ℚ × ℚ × ℚ)) (s : String)
    (h : strLower s ∉ validModes) :
    cliMain heat (some s) = build_map heat "full"
    ∧ (build_map heat "full").1 =
        add_heatmap_layer (add_landmarks (add_routes create_base_map get_routes_data)
          get_landmarks_data) heat ++ [CityLayer.control] := by
  constructor
  · simp [cliMain, h]
  · rfl

/-- Witness for C9's amended statement at the unknown argument "xyz". -/
theorem cli_unknown_mode_full_witness :
    cliMain [] (some "xyz") = build_map [] "full" :=
  (cli_unknown_mode_full [] "xyz" (by decide)).1

/-- C10: an unrecognized mode passed directly to build_map (bypassing the
CLI coercion) composes none of the three optional layers: the layer set
equals that of mode "base", and differs from that of mode "full". -/
theorem build_map_unknown_mode_base (heat : List (ℚ × ℚ × ℚ)) (mode : String)
    (h : mode ∉ (["routes", "landmarks", "heatmap", "full"] : List String)) :
    (build_map heat mode).1 = (build_map heat "base").1
    ∧ (build_map heat mode).1 = [CityLayer.tile "City Map", CityLayer.control]
    ∧ (build_map heat mode).1 ≠ (build_map heat "full").1 := by
  have h1 : ¬ (mode = "routes" ∨ mode = "full") := by
    rintro (rfl | rfl) <;> simp at h
  have h2 : ¬ (mode = "landmarks" ∨ mode = "full") := by
    rintro (rfl | rfl) <;> simp at h
  have h3 : ¬ (mode = "heatmap" ∨ mode = "full") := by
    rintro (rfl | rfl) <;> simp at h
  have hbase : (build_map heat mode).1 = [CityLayer.tile "City Map", CityLayer.control] := by
    simp [build_map, h1, h2, h3, create_base_map]
  have hsecond : ((build_map heat "full").1).get? 1 =
      some (CityLayer.routeGroup "Tram Line" "blue"
        [(45.523, -122.676), (45.521, -122.681), (45.518, -122.683), (45.515, -122.682),
         (45.511, -122.678)] (45.523, -122.676)) := rfl
  refine ⟨?_, hbase, ?_⟩
  · rw [hbase]
    rfl
  · rw [hbase]
    intro heq
    have hsec2 : ([CityLayer.tile "City Map", CityLayer.control] : List CityLayer).get? 1 =
        some (CityLayer.routeGroup "Tram Line" "blue"
          [(45.523, -122.676), (45.521, -122.681), (45.518, -122.683), (45.515, -122.682),
           (45.511, -122.678)] (45.523, -122.676)) := by
      rw [heq, hsecond]
    simp at hsec2

/-- Witness for C10 at the unknown mode "xyz". -/
theorem build_map_unknown_mode_base_witness :
    (build_map [] "xyz").1 = [CityLayer.tile "City Map", CityLayer.control] :=
  (build_map_unknown_mode_base [] "xyz" (by decide)).2.1

end BuildMap

